import Mathlib

/-!
Verification of the emotion-to-media retrieval core of the repository
(`src/core/emotion_mapper.py`, `src/core/retrieval_engine.py`,
`src/core/feature_extractor.py`) as a shallow embedding in Lean.

Modelling conventions:
* Python dicts are association lists in insertion order (`dictGet`, `dictSet`);
  assignment to an existing key updates it in place, assignment to a fresh key
  appends, exactly like CPython insertion-ordered dicts.
* Python strings are Lean `String`s; `x in y` on strings is `pyContains`.
* Python floats are modelled as exact rationals (`ℚ`) on the descriptor side
  and as real numbers (`ℝ`) in the vector mathematics (including `sqrt`);
  binary-float rounding and NaN propagation are outside the model.
* `hashlib.md5(content).hexdigest()` is modelled by the digested content
  string itself: md5 is one fixed deterministic function, so equal contents
  give equal digests, and distinctness of digests can only be judged at the
  preimage level.
* `random.choice` is modelled by an explicit seed parameter choosing an index.
* Filesystem, subprocess and external-model calls of the feature extractor are
  modelled by an explicit environment record of functions, and a Python
  exception inside one of them (always caught by the source) is a `none`.
-/

namespace QM4

/-- Lookup in a Python dict modelled as an insertion-ordered association list. -/
def dictGet {α β : Type} [DecidableEq α] : List (α × β) → α → Option β
  | [], _ => none
  | (k, v) :: rest, key => if key = k then some v else dictGet rest key

/-- Assignment `d[key] = val` on a Python dict: update in place when the key is
present, append when it is new. -/
def dictSet {α β : Type} [DecidableEq α] : List (α × β) → α → β → List (α × β)
  | [], key, val => [(key, val)]
  | (k, v) :: rest, key, val =>
    if key = k then (k, val) :: rest else (k, v) :: dictSet rest key val

/-- Does `needle` occur as a contiguous run inside `hay`? (Python `in` on strings.) -/
def listInfix {α : Type} [DecidableEq α] (needle : List α) : List α → Bool
  | [] => needle.isEmpty
  | c :: rest => needle.isPrefixOf (c :: rest) || listInfix needle rest

/-- Python `needle in hay` for strings. -/
def pyContains (hay needle : String) : Bool := listInfix needle.toList hay.toList

/-- Python `str.lower()` (the strings of this repository are ASCII or Chinese,
where `Char.toLower` and Python agree). -/
def pyLower (s : String) : String := ⟨s.toList.map Char.toLower⟩

/-- Python `str.strip()`: drop leading and trailing whitespace. -/
def pyStrip (s : String) : String :=
  ⟨((s.toList.dropWhile Char.isWhitespace).reverse.dropWhile Char.isWhitespace).reverse⟩

/-! ## `emotion_mapper.EmotionRecognizer` -/

/-- The five base emotions with their keyword lists
(`EmotionRecognizer.__init__`, `base_emotions`). -/
def base_emotions : List (String × List String) := [
  ("焦虑", ["焦虑", "紧张", "担心", "不安", "害怕", "恐惧", "心跳", "忐忑", "惶恐"]),
  ("疲惫", ["疲惫", "累", "疲劳", "困倦", "乏力", "无力", "疲倦", "困", "精疲力竭"]),
  ("烦躁", ["烦躁", "烦恼", "易怒", "急躁", "不耐烦", "暴躁", "愤怒", "生气", "恼火"]),
  ("平静", ["平静", "放松", "安静", "宁静", "舒缓", "轻松", "安逸", "祥和", "淡定"]),
  ("压力", ["压力", "紧迫", "负担", "重压", "沉重", "压抑", "紧张", "负重", "喘不过气"])]

/-- The eight sleep-specific emotions (`sleep_specific_emotions`). -/
def sleep_specific_emotions : List (String × List String) := [
  ("反刍思考", ["反刍", "胡思乱想", "想太多", "思维循环", "钻牛角尖"]),
  ("睡眠焦虑", ["睡不着", "失眠", "睡眠焦虑", "怕睡不好", "担心睡眠"]),
  ("身体疲惫", ["身体累", "肌肉酸痛", "体力不支", "身体沉重"]),
  ("精神疲惫", ["脑子累", "精神疲劳", "心累", "思维疲惫"]),
  ("过度觉醒", ["太兴奋", "睡不下", "精神亢奋", "大脑活跃"]),
  ("就寝担忧", ["睡前担心", "明天的事", "工作压力", "生活烦恼"]),
  ("思维奔逸", ["停不下来", "思绪飞转", "脑子转个不停", "想法很多"]),
  ("躯体紧张", ["肌肉紧张", "身体僵硬", "无法放松", "绷得很紧"])]

/-- `{**base_emotions, **sleep_specific_emotions}`: the keys are disjoint, so
the merge is concatenation in insertion order. -/
def all_emotions : List (String × List String) := base_emotions ++ sleep_specific_emotions

/-- Is a character kept by the `re.sub(r'[^\w\s]', '', ...)` cleaning step?
Python `\w` is alphanumerics plus underscore plus the non-ASCII word
characters (in this repository: Chinese); non-ASCII characters are modelled
as word characters. -/
def is_word_char (c : Char) : Bool := c.isAlphanum || c = '_' || 128 ≤ c.toNat

/-- `EmotionRecognizer._clean_input`: drop non-word, collapse whitespace runs
to one blank, strip, lower-case. -/
def clean_input (text : String) : String :=
  let kept := text.toList.filter (fun c => is_word_char c || c.isWhitespace)
  let words := (kept.splitOnP (fun c => c.isWhitespace)).filter (fun w => !w.isEmpty)
  pyLower ⟨(words.intersperse [' ']).flatten⟩

/-- `EmotionRecognizer._calculate_emotion_score`: 2 points for an exact or
blank-delimited match of a keyword, 1 point for a plain substring match. -/
def calculate_emotion_score (text : String) (keywords : List String) : ℕ :=
  keywords.foldl (fun score keyword =>
    if pyContains text keyword then
      if keyword = text || pyContains (" " ++ text ++ " ") (" " ++ keyword ++ " ") then
        score + 2
      else
        score + 1
    else score) 0

/-- One scoring pass of `detect_emotion`: keep the emotions with positive score,
in table order (the source's let-bound score is inlined). -/
def score_emotions (cleaned : String) (table : List (String × List String)) :
    List (String × ℕ) :=
  table.filterMap (fun p =>
    if 0 < calculate_emotion_score cleaned p.2 then
      some (p.1, calculate_emotion_score cleaned p.2)
    else none)

/-- Python `max(items, key=score)`: the first item with the maximal score. -/
def py_max_by_score : List (String × ℕ) → Option (String × ℕ)
  | [] => none
  | x :: xs => some (xs.foldl (fun acc y => if acc.2 < y.2 then y else acc) x)

/-- `EmotionRecognizer.detect_emotion`. Confidence values are the exact
rationals behind the source's decimal literals. -/
def detect_emotion (user_input : String) : String × ℚ :=
  if user_input.isEmpty || (pyStrip user_input).length < 2 then ("焦虑", 17/20)
  else
    let cleaned := clean_input user_input
    let scores := score_emotions cleaned all_emotions
    let scores := if scores.isEmpty then score_emotions cleaned base_emotions else scores
    match py_max_by_score scores with
    | some best => (best.1, min (17/20 + best.2 * (3/100)) (19/20))
    | none => ("焦虑", 4/5)

/-! ## `emotion_mapper.MusicFeatureMapper` -/

/-- A Python dict value in a stage-feature dict: a descriptor string or a
number (`iso_stage_ratio`). -/
inductive Val where
  | str : String → Val
  | num : ℚ → Val
  deriving DecidableEq

/-- One stage's feature dict. -/
abbrev Stage := List (String × Val)

/-- One emotion's three-stage template dict. -/
abbrev Template := List (String × Stage)

/-- The mapper's `features_database` dict. -/
abbrev FeaturesDB := List (String × Template)

/-- A stage-feature dict with the six descriptor keys in source order. -/
def mkStage (tempo key dynamics mood instrumental texture : String) : Stage :=
  [("tempo", .str tempo), ("key", .str key), ("dynamics", .str dynamics),
   ("mood", .str mood), ("instrumental", .str instrumental), ("texture", .str texture)]

/-- `MusicFeatureMapper.__init__`: the explicit templates of the five base
emotions, transcribed verbatim. -/
def base_features_database : FeaturesDB := [
  ("焦虑", [
    ("匹配阶段", mkStage "moderate tense" "minor anxious" "restless energy"
      "matching anxiety" "strings, piano" "complex, layered"),
    ("引导阶段", mkStage "gradually calming" "minor to neutral transition" "settling down"
      "guiding to peace" "soft piano, ambient" "simplifying"),
    ("目标阶段", mkStage "slow peaceful" "major calm" "gentle soft"
      "deep relaxation for sleep" "ambient pads, nature" "minimal, spacious")]),
  ("疲惫", [
    ("匹配阶段", mkStage "tired sluggish" "minor weary" "heavy fatigue"
      "exhausted state" "cello, low piano" "heavy, dragging"),
    ("引导阶段", mkStage "gentle restoration" "minor to warm transition" "nurturing support"
      "healing tiredness" "warm strings, harp" "supportive, embracing"),
    ("目标阶段", mkStage "deeply restful" "warm major" "embracing comfort"
      "restorative sleep" "soft choir, ambient" "enveloping, safe")]),
  ("烦躁", [
    ("匹配阶段", mkStage "agitated irregular" "dissonant minor" "sharp edges"
      "irritated energy" "staccato strings, percussion" "angular, restless"),
    ("引导阶段", mkStage "smoothing out" "resolving tensions" "softening edges"
      "releasing irritation" "flowing strings, woodwinds" "smoothing, flowing"),
    ("目标阶段", mkStage "smooth flowing" "resolved major" "peaceful waves"
      "serene sleep state" "soft pads, gentle waves" "fluid, peaceful")]),
  ("平静", [
    ("匹配阶段", mkStage "naturally calm" "neutral peaceful" "already gentle"
      "existing tranquility" "soft piano, strings" "balanced, serene"),
    ("引导阶段", mkStage "deepening calm" "enriching peace" "expanding serenity"
      "enhancing stillness" "ambient, soft choir" "expanding, deepening"),
    ("目标阶段", mkStage "profound stillness" "deep major" "whisper soft"
      "transcendent sleep" "pure tones, silence" "minimal, transcendent")]),
  ("压力", [
    ("匹配阶段", mkStage "pressured urgent" "tense minor" "compressed energy"
      "stress overload" "tight strings, muted brass" "compressed, intense"),
    ("引导阶段", mkStage "releasing pressure" "opening up space" "expanding freedom"
      "letting go stress" "opening brass, flowing strings" "expanding, liberating"),
    ("目标阶段", mkStage "weightless floating" "liberated major" "free flowing"
      "stress-free sleep" "ambient space, soft pads" "weightless, free")])]

/-- The sleep emotions given derived templates
(`_create_sleep_emotion_mappings`, local `sleep_emotions`). -/
def sleep_emotions_list : List String :=
  ["反刍思考", "睡眠焦虑", "身体疲惫", "精神疲惫", "过度觉醒", "就寝担忧", "思维奔逸", "躯体紧张"]

/-- The keyword branching of `_create_sleep_emotion_mappings` selecting a base
template for a derived emotion. The `.getD []` defaults model Python
`KeyError`s that cannot fire on the initial database. -/
def choose_base_template (db : FeaturesDB) (emotion : String) : Template :=
  if pyContains emotion "焦虑" || pyContains emotion "担忧" then (dictGet db "焦虑").getD []
  else if pyContains emotion "疲惫" then (dictGet db "疲惫").getD []
  else if pyContains emotion "觉醒" || pyContains emotion "奔逸" then (dictGet db "烦躁").getD []
  else if pyContains emotion "紧张" then (dictGet db "压力").getD []
  else (dictGet db "焦虑").getD []

/-- `features['mood']` of a stage dict (always a string in the database). -/
def stage_mood (st : Stage) : String :=
  match dictGet st "mood" with
  | some (.str m) => m
  | _ => ""

/-- The dict comprehension `{stage: {**features, "mood": f"{emotion} - {mood}"}}`:
fresh stage dicts with the mood field rewritten, order preserved. -/
def derive_template (emotion : String) (t : Template) : Template :=
  t.map (fun p => (p.1, dictSet p.2 "mood" (.str (emotion ++ " - " ++ stage_mood p.2))))

/-- `MusicFeatureMapper._create_sleep_emotion_mappings`, run once at
construction over the growing database. -/
def create_sleep_emotion_mappings (db : FeaturesDB) : FeaturesDB :=
  sleep_emotions_list.foldl (fun db emotion =>
    if (dictGet db emotion).isSome then db
    else dictSet db emotion (derive_template emotion (choose_base_template db emotion))) db

/-- The mapper's `features_database` after `__init__` finishes. -/
def features_database : FeaturesDB := create_sleep_emotion_mappings base_features_database

/-- `MusicFeatureMapper.get_music_features`: the emotion's template, falling
back to the 焦虑 (anxiety) template for an unknown emotion. -/
def get_music_features (db : FeaturesDB) (emotion : String) : Template :=
  match dictGet db emotion with
  | some t => t
  | none => (dictGet db "焦虑").getD []

/-- `MusicFeatureMapper.extract_matching_stage_features`. The source mutates the
match-stage dict it aliases out of the database (adding the `emotion`, `stage`
and `iso_stage_ratio` keys), so the call returns the tagged stage *and* the
updated database; `key` is the entry the alias belongs to (the fallback entry
焦虑 when the emotion is unknown). -/
def extract_matching_stage_features (db : FeaturesDB) (emotion : String) :
    Stage × FeaturesDB :=
  let features := get_music_features db emotion
  let matching := (dictGet features "匹配阶段").getD []
  let tagged := dictSet (dictSet (dictSet matching "emotion" (.str emotion))
    "stage" (.str "匹配阶段")) "iso_stage_ratio" (.num (1/4))
  let key := if (dictGet db emotion).isSome then emotion else "焦虑"
  (tagged, dictSet db key (dictSet features "匹配阶段" tagged))

/-- `MusicFeatureMapper.get_supported_emotions`. -/
def get_supported_emotions (db : FeaturesDB) : List String := db.map Prod.fst

/-- Does a stage dict hold the six descriptor fields? -/
def stage_complete (st : Stage) : Bool :=
  ["tempo", "key", "dynamics", "mood", "instrumental", "texture"].all
    (fun k => (dictGet st k).isSome)

/-- Is a template a complete three-stage bundle (match, guide, target, each with
the six descriptor fields)? -/
def templateOK (t : Template) : Bool :=
  (t.map Prod.fst == ["匹配阶段", "引导阶段", "目标阶段"]) &&
    t.all (fun p => stage_complete p.2)

/-- `pathlib.Path(p).name`: the component after the last slash. -/
def basename (p : String) : String :=
  ⟨(p.toList.reverse.takeWhile (fun c => c ≠ '/')).reverse⟩

/-! ## `retrieval_engine.VideoRetrievalEngine`: descriptor vectorisation -/

/-- `features.get(k, '')` on a stage dict (the six descriptor values are
always strings). -/
def stage_get (st : Stage) (k : String) : String :=
  match dictGet st k with
  | some (.str s) => s
  | _ => ""

/-- First-match lookup of `tempo_map`-style dicts: scan the table in insertion
order and return the value of the first keyword contained in the lowered
descriptor, else the default (the `for key, value in ...: if key in desc.lower()`
loops of the source). -/
noncomputable def keyword_lookup (table : List (String × ℝ)) (dflt : ℝ)
    (desc : String) : ℝ :=
  match table with
  | [] => dflt
  | (k, v) :: rest => if pyContains (pyLower desc) k then v else keyword_lookup rest dflt desc

/-- The `tempo_map` of `_extract_tempo_value`, in insertion order. -/
noncomputable def tempo_map : List (String × ℝ) :=
  [("slow", 1/5), ("deeply", 1/10), ("profound", 1/10),
   ("moderate", 1/2), ("gradually", 2/5), ("natural", 1/2),
   ("fast", 4/5), ("urgent", 9/10), ("agitated", 17/20),
   ("tired", 1/4), ("sluggish", 1/5), ("gentle", 3/10),
   ("smooth", 2/5), ("flowing", 9/20), ("weightless", 3/20)]

/-- `_extract_tempo_value`: first matching keyword of `tempo_map`, default 0.5. -/
noncomputable def extract_tempo_value (tempo_desc : String) : ℝ :=
  keyword_lookup tempo_map (1/2) tempo_desc

/-- `_extract_key_value` (the inner qualifier checks are on the raw string,
as in the source). -/
noncomputable def extract_key_value (key_desc : String) : ℝ :=
  if pyContains (pyLower key_desc) "minor" then
    if pyContains key_desc "anxious" || pyContains key_desc "tense" then 1/5
    else if pyContains key_desc "weary" then 1/4
    else 3/10
  else if pyContains (pyLower key_desc) "major" then
    if pyContains key_desc "calm" then 7/10
    else if pyContains key_desc "warm" then 3/4
    else 3/5
  else 1/2

/-- The `dynamics_map` of `_extract_dynamics_value`, in insertion order. -/
noncomputable def dynamics_map : List (String × ℝ) :=
  [("whisper", 1/10), ("gentle", 1/5), ("soft", 1/4),
   ("restless", 7/10), ("sharp", 4/5), ("heavy", 3/5),
   ("compressed", 3/4), ("embracing", 3/10), ("peaceful", 1/5),
   ("expanding", 1/2), ("free", 2/5)]

/-- `_extract_dynamics_value`: first matching keyword of `dynamics_map`,
default 0.4. -/
noncomputable def extract_dynamics_value (dynamics_desc : String) : ℝ :=
  keyword_lookup dynamics_map (2/5) dynamics_desc

/-- The `intensity_keywords` table of `_extract_mood_intensity`. -/
noncomputable def intensity_keywords : List (String × ℝ) :=
  [("deep", 4/5), ("profound", 9/10), ("transcendent", 1),
   ("anxiety", 7/10), ("stress", 4/5), ("overload", 9/10),
   ("exhausted", 3/5), ("fatigue", 1/2), ("tired", 2/5),
   ("irritated", 7/10), ("angry", 4/5), ("calm", 3/10),
   ("peace", 1/5), ("tranquil", 1/4), ("serene", 1/5)]

/-- `_extract_mood_intensity`: the maximum of 0.5 and every matching keyword's
intensity. -/
noncomputable def extract_mood_intensity (mood_desc : String) : ℝ :=
  intensity_keywords.foldl
    (fun acc p => if pyContains (pyLower mood_desc) p.1 then max acc p.2 else acc) (1/2)

/-- Python `s.split(sep)` for a one-character separator. -/
def pySplit (s : String) (sep : Char) : List String :=
  (s.toList.splitOn sep).map fun cs => (⟨cs⟩ : String)

/-- `_extract_instrument_complexity`. -/
noncomputable def extract_instrument_complexity (instrument_desc : String) : ℝ :=
  if instrument_desc.isEmpty then 1/2
  else
    let instruments := pySplit (pyLower instrument_desc) ','
    let complexity : ℝ := instruments.length * (1/5)
    let complexity := instruments.foldl (fun acc inst =>
      let inst := pyStrip inst
      if ["percussion", "brass", "strings"].any (fun ci => pyContains inst ci) then acc + 3/10
      else if ["piano", "ambient", "pads"].any (fun si => pyContains inst si) then acc + 1/10
      else acc) complexity
    min complexity 1

/-- The `texture_map` of `_extract_texture_complexity`, in insertion order. -/
noncomputable def texture_map : List (String × ℝ) :=
  [("minimal", 1/10), ("simple", 1/5), ("spacious", 1/5),
   ("complex", 4/5), ("layered", 7/10), ("polyphonic", 9/10),
   ("angular", 3/5), ("flowing", 2/5), ("smooth", 3/10),
   ("balanced", 1/2), ("compressed", 7/10), ("intense", 4/5)]

/-- `_extract_texture_complexity`: first matching keyword of `texture_map`,
default 0.5. -/
noncomputable def extract_texture_complexity (texture_desc : String) : ℝ :=
  keyword_lookup texture_map (1/2) texture_desc

/-- `_emotion_features_to_vector`: the six-axis numeric vector of a (tagged)
match-stage dict, as real numbers. -/
noncomputable def emotion_features_to_vector (features : Stage) : List ℝ :=
  [extract_tempo_value (stage_get features "tempo"),
   extract_key_value (stage_get features "key"),
   extract_dynamics_value (stage_get features "dynamics"),
   extract_mood_intensity (stage_get features "mood"),
   extract_instrument_complexity (stage_get features "instrumental"),
   extract_texture_complexity (stage_get features "texture")]

/-! ## Vector mathematics (`np.dot`, `np.linalg.norm`, `_normalize_vector`) -/

/-- `np.dot` on two equal-length 1-D arrays (zip semantics). -/
def dotL : List ℝ → List ℝ → ℝ
  | a :: as_, b :: bs => a * b + dotL as_ bs
  | _, _ => 0

/-- The sum of squares of a vector. -/
def sumSq (v : List ℝ) : ℝ := dotL v v

/-- `np.linalg.norm`. -/
noncomputable def l2norm (v : List ℝ) : ℝ := Real.sqrt (sumSq v)

/-- `VideoRetrievalEngine._normalize_vector`: divide by the norm when it is
positive, else return the vector unchanged. -/
noncomputable def normalize_vector (v : List ℝ) : List ℝ :=
  if 0 < l2norm v then v.map (fun x => x / l2norm v) else v

/-- Componentwise difference of two equal-length vectors. -/
def listSub (a b : List ℝ) : List ℝ := List.zipWith (fun x y => x - y) a b

/-! ## `_extract_clamp3_statistics` and its helpers -/

/-- `np.mean` (real division; empty input gives `0/0 = 0` where numpy warns
and yields NaN — NaN is outside the model and the caller guards emptiness). -/
noncomputable def list_mean (v : List ℝ) : ℝ := v.sum / v.length

/-- `np.std` (population standard deviation). -/
noncomputable def list_std (v : List ℝ) : ℝ :=
  Real.sqrt (list_mean (v.map fun x => (x - list_mean v) ^ 2))

/-- `np.max` (0 for the empty list, which raises in numpy and is guarded). -/
noncomputable def list_max : List ℝ → ℝ
  | [] => 0
  | x :: xs => xs.foldl max x

/-- `np.min`. -/
noncomputable def list_min : List ℝ → ℝ
  | [] => 0
  | x :: xs => xs.foldl min x

/-- `np.percentile(v, q)` with the default linear interpolation. -/
noncomputable def np_percentile (v : List ℝ) (q : ℝ) : ℝ :=
  let s := v.mergeSort (fun a b => decide (a ≤ b))
  if s.length = 0 then 0
  else
    let idx : ℝ := q / 100 * ((s.length : ℝ) - 1)
    let lo : ℕ := ⌊idx⌋₊
    let hi : ℕ := ⌈idx⌉₊
    s.getD lo 0 + (idx - (lo : ℝ)) * (s.getD hi 0 - s.getD lo 0)

/-- `np.median` (equal to the 50th linear-interpolation percentile). -/
noncomputable def np_median (v : List ℝ) : ℝ := np_percentile v 50

/-- `VideoRetrievalEngine._calculate_skewness`. -/
noncomputable def calculate_skewness (data : List ℝ) : ℝ :=
  if data.length < 3 then 0
  else if list_std data = 0 then 0
  else list_mean (data.map fun x => ((x - list_mean data) / list_std data) ^ 3)

/-- `VideoRetrievalEngine._calculate_kurtosis`. -/
noncomputable def calculate_kurtosis (data : List ℝ) : ℝ :=
  if data.length < 4 then 0
  else if list_std data = 0 then 0
  else list_mean (data.map fun x => ((x - list_mean data) / list_std data) ^ 4) - 3

/-- One bin of `np.fft.fft` of a real vector. -/
noncomputable def dft_bin (v : List ℝ) (k : ℕ) : ℂ :=
  ∑ j ∈ Finset.range v.length,
    ((v.getD j 0 : ℝ) : ℂ) *
      Complex.exp (-2 * (Real.pi : ℂ) * Complex.I * (j : ℂ) * (k : ℂ) / (v.length : ℂ))

/-- The `spectral_centroid` statistic of `_extract_clamp3_statistics`: centroid
of the FFT magnitude of the embedding treated as a 1-D signal. -/
noncomputable def clamp3_fft_centroid (v : List ℝ) : ℝ :=
  (∑ k ∈ Finset.range v.length, (k : ℝ) * Complex.abs (dft_bin v k)) /
    (∑ k ∈ Finset.range v.length, Complex.abs (dft_bin v k))

/-- The statistics dict built by `_extract_clamp3_statistics` (`maxv`/`minv`
stand for the source's `max`/`min` keys). -/
structure Clamp3Stats where
  mean : ℝ
  std : ℝ
  maxv : ℝ
  minv : ℝ
  median : ℝ
  q25 : ℝ
  q75 : ℝ
  iqr : ℝ
  skewness : ℝ
  kurtosis : ℝ
  energy : ℝ
  rms : ℝ
  spectral_centroid : ℝ

/-- `VideoRetrievalEngine._extract_clamp3_statistics`. -/
noncomputable def extract_clamp3_statistics (v : List ℝ) : Clamp3Stats where
  mean := list_mean v
  std := list_std v
  maxv := list_max v
  minv := list_min v
  median := np_median v
  q25 := np_percentile v 25
  q75 := np_percentile v 75
  iqr := np_percentile v 75 - np_percentile v 25
  skewness := calculate_skewness v
  kurtosis := calculate_kurtosis v
  energy := (v.map fun x => x ^ 2).sum
  rms := Real.sqrt (list_mean (v.map fun x => x ^ 2))
  spectral_centroid := clamp3_fft_centroid v

/-- `VideoRetrievalEngine._map_clamp3_to_emotion_space`. -/
noncomputable def map_clamp3_to_emotion_space (stats : Clamp3Stats) : List ℝ :=
  [min (|stats.energy| / 10) 1,
   min (|stats.spectral_centroid| / 100) 1,
   min (stats.std * 2) 1,
   min (stats.rms * 5) 1,
   min (|stats.skewness| / 2) 1,
   min (|stats.kurtosis| / 5) 1]

/-! ## Candidate feature records and the two similarity branches -/

/-- One catalog descriptor handed to `extract_batch_features`
(`video_info` dict). -/
structure SegInfo where
  segment_path : Option String := none
  file_path : Option String := none
  deriving DecidableEq

/-- A candidate's feature dict (`features_database` entry / cached
`FeatureRecord`): `none` models an absent key. -/
structure VideoFeatures where
  clamp3_features : Option (List ℝ) := none
  feature_vector : Option (List ℝ) := none
  tempo_estimate : Option ℝ := none
  rms_energy : Option ℝ := none
  brightness : Option ℝ := none
  warmth : Option ℝ := none
  rhythm_regularity : Option ℝ := none
  spectral_centroid : Option ℝ := none
  dynamic_range : Option ℝ := none
  duration : Option ℝ := none
  video_path : String := ""
  video_name : String := ""
  extract_ratio : ℚ := 0
  feature_id : String := ""
  extracted_at : String := ""
  file_size : ℕ := 0
  extractor_version : String := ""
  model_type : String := ""
  source_info : Option SegInfo := none

/-- `video_features.get('clamp3_features') or video_features.get('feature_vector')`:
Python `or` falls through on `None` and on an empty (falsy) list. -/
def py_or_vec (c f : Option (List ℝ)) : Option (List ℝ) :=
  match c with
  | some v => if v.isEmpty then f else some v
  | none => f

/-- `VideoRetrievalEngine._audio_features_to_vector` (`features.get(k, 0)`
models an absent key as 0). -/
noncomputable def audio_features_to_vector (vf : VideoFeatures) : List ℝ :=
  [min (vf.tempo_estimate.getD 0 / 200) 1,
   min (vf.rms_energy.getD 0 * 10) 1,
   min (vf.brightness.getD 0) 1,
   min (vf.warmth.getD 0) 1,
   min (vf.rhythm_regularity.getD 0) 1,
   min (vf.spectral_centroid.getD 0 / 8000) 1,
   min (vf.dynamic_range.getD 0 / 2) 1]

/-- `VideoRetrievalEngine._calculate_clamp3_similarity`. The `v.isEmpty` branch
models the exception numpy raises on an empty vector, which the caller
catches and turns into 0.0. -/
noncomputable def calculate_clamp3_similarity (emotion_vector : List ℝ)
    (vf : VideoFeatures) : ℝ :=
  match py_or_vec vf.clamp3_features vf.feature_vector with
  | none => 0
  | some v =>
    if v.isEmpty then 0
    else
      let stats := extract_clamp3_statistics v
      let mapped := normalize_vector (map_clamp3_to_emotion_space stats)
      let m := min emotion_vector.length mapped.length
      let emotion_vec := emotion_vector.take m
      let audio_vec := mapped.take m
      (8/10 : ℝ) * max 0 (dotL emotion_vec audio_vec) +
        (2/10 : ℝ) * (1 / (1 + l2norm (listSub emotion_vec audio_vec)))

/-- `VideoRetrievalEngine._calculate_traditional_similarity`. -/
noncomputable def calculate_traditional_similarity (emotion_vector : List ℝ)
    (vf : VideoFeatures) : ℝ :=
  let audio_vector_norm := normalize_vector (audio_features_to_vector vf)
  let m := min emotion_vector.length audio_vector_norm.length
  let emotion_vec := emotion_vector.take m
  let audio_vec := audio_vector_norm.take m
  (7/10 : ℝ) * max 0 (dotL emotion_vec audio_vec) +
    (3/10 : ℝ) * (1 / (1 + l2norm (listSub emotion_vec audio_vec)))

/-! ## The engine's emotion database and the ranking operations -/

/-- `VideoRetrievalEngine._build_emotion_database`: for every supported emotion,
in order, fetch the (tagged) match stage — threading the mapper-store mutation
of `extract_matching_stage_features` — vectorise and normalise it. Only the
`normalized_vector` entry is consumed by the similarity code, so only it is
stored here. -/
noncomputable def build_emotion_database : List (String × List ℝ) × FeaturesDB :=
  (get_supported_emotions features_database).foldl
    (fun acc emotion =>
      let st := extract_matching_stage_features acc.2 emotion
      (dictSet acc.1 emotion (normalize_vector (emotion_features_to_vector st.1)), st.2))
    ([], features_database)

/-- The engine's `emotion_database` (normalised emotion vectors). -/
noncomputable def engine_emotion_database : List (String × List ℝ) :=
  build_emotion_database.1

/-- `VideoRetrievalEngine.calculate_similarity`: 0.0 for an emotion without
feature data, else the CLAMP3 branch when the record has a `clamp3_features`
or `feature_vector` key, else the traditional branch. -/
noncomputable def calculate_similarity (edb : List (String × List ℝ))
    (emotion : String) (vf : VideoFeatures) : ℝ :=
  match dictGet edb emotion with
  | none => 0
  | some emotion_vector =>
    if vf.clamp3_features.isSome || vf.feature_vector.isSome then
      calculate_clamp3_similarity emotion_vector vf
    else
      calculate_traditional_similarity emotion_vector vf

/-- `VideoRetrievalEngine.retrieve_videos`: score every catalog entry, keep
those at or above `min_similarity`, sort by score descending with the stable
sort (Python's `list.sort(key=..., reverse=True)` is stable descending, which
is what `mergeSort` on this comparison computes; the source's let-bound score
is inlined), return the first `top_k` (`top_k` modelled as a natural number). -/
noncomputable def retrieve_videos (fdb : List (String × VideoFeatures))
    (edb : List (String × List ℝ)) (emotion : String) (top_k : ℕ)
    (min_similarity : ℝ) : List (String × ℝ × VideoFeatures) :=
  if fdb.isEmpty then []
  else
    ((fdb.filterMap (fun p =>
      if min_similarity ≤ calculate_similarity edb emotion p.2 then
        some (p.1, calculate_similarity edb emotion p.2, p.2)
      else none)).mergeSort (fun a b => decide (b.2.1 ≤ a.2.1))).take top_k

/-- `VideoRetrievalEngine.get_random_from_top_k`: `random.choice` modelled by a
seed choosing an index into the non-empty list. -/
noncomputable def get_random_from_top_k (fdb : List (String × VideoFeatures))
    (seed : ℕ) (emotion : String) (top_k : ℕ) :
    Option (String × ℝ × VideoFeatures) :=
  let top_results := retrieve_videos fdb engine_emotion_database emotion top_k (1/10)
  if top_results.isEmpty then none
  else top_results[seed % top_results.length]?

/-- The `video_info` dict assembled by `TherapyVideoSelector.select_therapy_video`
(wall-clock timestamp omitted). -/
structure SelectionInfo where
  video_path : String
  video_name : String
  detected_emotion : String
  emotion_confidence : ℚ
  similarity_score : ℝ
  user_input : String
  video_features : VideoFeatures
  therapy_stage : String
  therapy_duration : ℝ
  iso_features : Template

/-- `TherapyVideoSelector.select_therapy_video`. -/
noncomputable def select_therapy_video (fdb : List (String × VideoFeatures))
    (seed : ℕ) (user_input : String) : Option SelectionInfo :=
  let detected := detect_emotion user_input
  match get_random_from_top_k fdb seed detected.1 5 with
  | none => none
  | some (video_path, similarity, vf) =>
    some {
      video_path := video_path
      video_name := basename video_path
      detected_emotion := detected.1
      emotion_confidence := detected.2
      similarity_score := similarity
      user_input := user_input
      video_features := vf
      therapy_stage := "ISO匹配阶段"
      therapy_duration := vf.duration.getD 0
      iso_features := get_music_features features_database detected.1 }

/-! ## `feature_extractor.py`: fingerprints, cached extraction, batch extraction -/

/-- `CLAMP3FeatureExtractor._generate_feature_id`: the md5 preimage
`f"clamp3_{video_path.name}_{stat.st_size}_{stat.st_mtime}_{extract_ratio}"`
(the digest is modelled by its preimage, see the header). Note the source uses
`video_path.name` — the basename — not the full path. -/
def clamp3_generate_feature_id (name : String) (size : ℕ) (mtime : ℚ) (ratio : ℚ) :
    String :=
  "clamp3_" ++ name ++ "_" ++ toString size ++ "_" ++ toString mtime ++ "_" ++ toString ratio

/-- `AudioFeatureExtractor._generate_feature_id`: the md5 preimage
`f"{video_path.name}_{stat.st_size}_{stat.st_mtime}_{extract_ratio}"`. -/
def audio_generate_feature_id (name : String) (size : ℕ) (mtime : ℚ) (ratio : ℚ) :
    String :=
  name ++ "_" ++ toString size ++ "_" ++ toString mtime ++ "_" ++ toString ratio

/-- The extractor's environment: filesystem metadata, the ffmpeg audio-segment
step, the external CLAMP3 embedding provider and the librosa fallback, each
returning `none` on failure (a raised-and-caught exception or a missing
dependency in the source). -/
structure ExtractEnv where
  file_exists : String → Bool
  file_size : String → ℕ
  file_mtime : String → ℚ
  extract_audio_segment : String → ℚ → Option String
  clamp3_extract : String → Option (List ℝ)
  librosa_feature_vector : String → Option (List ℝ)
  now : String

/-- The extractor's mutable state: the fingerprint-keyed `features_cache`,
instrumented with run counters so that "no recomputation" is a provable
statement. -/
structure ExtractorState where
  features_cache : List (String × VideoFeatures)
  audio_runs : ℕ := 0
  clamp3_runs : ℕ := 0
  librosa_runs : ℕ := 0

/-- `CLAMP3FeatureExtractor._extract_fallback_features` (librosa path): on
success the combined feature vector is cached under the same fingerprint. -/
def extract_fallback_features (env : ExtractEnv) (st : ExtractorState)
    (audio_path video_path : String) (ratio : ℚ) (fid : String) :
    Option VideoFeatures × ExtractorState :=
  let st := { st with librosa_runs := st.librosa_runs + 1 }
  match env.librosa_feature_vector audio_path with
  | none => (none, st)
  | some fv =>
    let r0 : VideoFeatures := {
      feature_vector := some fv
      video_path := video_path
      video_name := basename video_path
      extract_ratio := ratio
      feature_id := fid
      extracted_at := env.now
      file_size := env.file_size video_path
      extractor_version := "4.0.0-fallback"
      model_type := "librosa-traditional" }
    (some r0, { st with features_cache := dictSet st.features_cache fid r0 })

/-- `CLAMP3FeatureExtractor.extract_video_features`: missing file → `None`;
cache hit → the cached record unchanged; otherwise extract the leading audio
segment, try the CLAMP3 provider, fall back to librosa, and cache the new
record under the fingerprint. -/
def extract_video_features (env : ExtractEnv) (st : ExtractorState)
    (video_path : String) (ratio : ℚ) : Option VideoFeatures × ExtractorState :=
  if !env.file_exists video_path then (none, st)
  else
    let fid := clamp3_generate_feature_id (basename video_path)
      (env.file_size video_path) (env.file_mtime video_path) ratio
    match dictGet st.features_cache fid with
    | some cached => (some cached, st)
    | none =>
      let st := { st with audio_runs := st.audio_runs + 1 }
      match env.extract_audio_segment video_path ratio with
      | none => (none, st)
      | some audio_path =>
        let st := { st with clamp3_runs := st.clamp3_runs + 1 }
        match env.clamp3_extract audio_path with
        | none => extract_fallback_features env st audio_path video_path ratio fid
        | some cf =>
          let r0 : VideoFeatures := {
            clamp3_features := some cf
            feature_vector := some cf
            video_path := video_path
            video_name := basename video_path
            extract_ratio := ratio
            feature_id := fid
            extracted_at := env.now
            file_size := env.file_size video_path
            extractor_version := "4.0.0-clamp3"
            model_type := "clamp3-saas" }
          (some r0, { st with features_cache := dictSet st.features_cache fid r0 })

/-- `video_info.get('segment_path') or video_info.get('file_path')` (Python
`or`: `None` and the empty string are falsy). -/
def py_or_path (a b : Option String) : Option String :=
  match a with
  | some s => if s.isEmpty then b else some s
  | none => b

/-- The loop body of `CLAMP3FeatureExtractor.extract_batch_features`, with the
result dict as an accumulator (`features_db[video_path] = features`, then
`features.update({'source_info': video_info})`, which also reaches the cached
record aliasing the same dict). -/
def extract_batch_go (env : ExtractEnv) :
    List SegInfo → ℚ → List (String × VideoFeatures) → ExtractorState →
    List (String × VideoFeatures) × ExtractorState
  | [], _, db, st => (db, st)
  | info :: rest, ratio, db, st =>
    match py_or_path info.segment_path info.file_path with
    | none => extract_batch_go env rest ratio db st
    | some video_path =>
      if video_path.isEmpty then extract_batch_go env rest ratio db st
      else
        let r := extract_video_features env st video_path ratio
        match r.1 with
        | none => extract_batch_go env rest ratio db r.2
        | some f =>
          let f' := { f with source_info := some info }
          extract_batch_go env rest ratio (dictSet db video_path f')
            { r.2 with features_cache := dictSet r.2.features_cache f.feature_id f' }

/-- `CLAMP3FeatureExtractor.extract_batch_features`. -/
def extract_batch_features (env : ExtractEnv) (st : ExtractorState)
    (video_list : List SegInfo) (ratio : ℚ) :
    List (String × VideoFeatures) × ExtractorState :=
  extract_batch_go env video_list ratio [] st

/-- The path strings named by a batch's descriptors (a descriptor with no
usable path names nothing). -/
def listed_paths (video_list : List SegInfo) : List String :=
  video_list.filterMap (fun info =>
    match py_or_path info.segment_path info.file_path with
    | none => none
    | some p => if p.isEmpty then none else some p)

/-! ## Concrete fixtures used by witnesses and counterexamples -/

/-- An environment whose embedding provider and librosa fallback both fail
(the audio step itself succeeds). -/
def both_paths_fail_env : ExtractEnv where
  file_exists := fun _ => true
  file_size := fun _ => 0
  file_mtime := fun _ => 0
  extract_audio_segment := fun _ _ => some "temp_clamp3_extraction/segment.wav"
  clamp3_extract := fun _ => none
  librosa_feature_vector := fun _ => none
  now := ""

/-- An extractor state with an empty cache. -/
def empty_extractor_state : ExtractorState where
  features_cache := []

/-- A concrete environment for the cache-hit witness. -/
def hit_env : ExtractEnv where
  file_exists := fun _ => true
  file_size := fun _ => 4096
  file_mtime := fun _ => 17/10
  extract_audio_segment := fun _ _ => none
  clamp3_extract := fun _ => none
  librosa_feature_vector := fun _ => none
  now := "t1"

/-- The cache-hit witness's cached record. -/
def hit_record : VideoFeatures where
  clamp3_features := some [1, 0]
  feature_vector := some [1, 0]
  video_path := "materials/video/32.mp4"
  video_name := "32.mp4"
  extract_ratio := 1/4
  feature_id := clamp3_generate_feature_id "32.mp4" 4096 (17/10) (1/4)
  extracted_at := "t0"
  file_size := 4096
  extractor_version := "4.0.0-clamp3"
  model_type := "clamp3-saas"

/-- The cache-hit witness's extractor state: `hit_record` is already cached
under the fingerprint of `materials/video/32.mp4`. -/
def hit_state : ExtractorState where
  features_cache :=
    [(clamp3_generate_feature_id (basename "materials/video/32.mp4")
        (hit_env.file_size "materials/video/32.mp4")
        (hit_env.file_mtime "materials/video/32.mp4") (1/4), hit_record)]

/-! ## Association-list (Python dict) lemmas -/

theorem dictGet_dictSet_self {α β : Type} [DecidableEq α] (m : List (α × β)) (k : α) (v : β) :
    dictGet (dictSet m k v) k = some v := by
  induction m with
  | nil => simp [dictGet, dictSet]
  | cons p rest ih =>
    obtain ⟨a, b⟩ := p
    by_cases h : k = a <;> simp [dictSet, dictGet, h, ih]

theorem dictGet_dictSet_ne {α β : Type} [DecidableEq α] (m : List (α × β)) {k k' : α}
    (v : β) (h : k' ≠ k) : dictGet (dictSet m k v) k' = dictGet m k' := by
  induction m with
  | nil => simp [dictGet, dictSet, h]
  | cons p rest ih =>
    obtain ⟨a, b⟩ := p
    by_cases hka : k = a
    · subst hka
      simp [dictSet, dictGet, h, ih]
    · by_cases hk'a : k' = a <;> simp [dictSet, dictGet, hka, hk'a, ih]

theorem dictSet_preserve {α β : Type} [DecidableEq α] {m : List (α × β)} {k : α} {v : β}
    (h : dictGet m k = some v) : dictSet m k v = m := by
  induction m with
  | nil => simp [dictGet] at h
  | cons p rest ih =>
    obtain ⟨a, b⟩ := p
    by_cases hka : k = a
    · subst hka
      simp [dictGet] at h
      simp [dictSet, h]
    · simp [dictGet, hka] at h
      simp [dictSet, hka, ih h]

theorem dictGet_mem {α β : Type} [DecidableEq α] {m : List (α × β)} {k : α} {v : β}
    (h : dictGet m k = some v) : (k, v) ∈ m := by
  induction m with
  | nil => simp [dictGet] at h
  | cons p rest ih =>
    obtain ⟨a, b⟩ := p
    by_cases hka : k = a
    · subst hka
      simp [dictGet] at h
      simp [h]
    · simp [dictGet, hka] at h
      simp [ih h]

theorem mem_dictSet {α β : Type} [DecidableEq α] {m : List (α × β)} {k : α} {v : β}
    {x : α × β} (h : x ∈ dictSet m k v) : x = (k, v) ∨ x ∈ m := by
  induction m with
  | nil => simpa [dictSet] using h
  | cons p rest ih =>
    obtain ⟨a, b⟩ := p
    by_cases hka : k = a
    · subst hka
      simp [dictSet] at h
      rcases h with h | h
      · exact Or.inl (by simp [h])
      · exact Or.inr (by simp [h])
    · simp [dictSet, hka] at h
      rcases h with h | h
      · exact Or.inr (by simp [h])
      · rcases ih h with h' | h'
        · exact Or.inl h'
        · exact Or.inr (by simp [h'])

/-! ## Claim C9 — the tempo-axis keyword lookup -/

theorem keyword_lookup_bounds {lo hi : ℝ} (table : List (String × ℝ)) (dflt : ℝ)
    (s : String) (ht : ∀ p ∈ table, lo ≤ p.2 ∧ p.2 ≤ hi) (hd1 : lo ≤ dflt)
    (hd2 : dflt ≤ hi) :
    lo ≤ keyword_lookup table dflt s ∧ keyword_lookup table dflt s ≤ hi := by
  induction table with
  | nil => exact ⟨hd1, hd2⟩
  | cons p rest ih =>
    obtain ⟨k, v⟩ := p
    rw [keyword_lookup]
    by_cases h : pyContains (pyLower s) k = true
    · rw [if_pos h]
      exact ht (k, v) (List.mem_cons_self _ _)
    · rw [if_neg h]
      exact ih (fun q hq => ht q (List.mem_cons_of_mem _ hq))

/-- Claim C9, counterexample: the claim says a descriptor containing
"moderate" yields 0.5, but the lookup scans the table in insertion order and
"slow" wins first, so `"slow moderate"` (which contains "moderate") yields
0.2, not 0.5. -/
theorem C9_counterexample :
    pyContains (pyLower "slow moderate") "moderate" = true ∧
      extract_tempo_value "slow moderate" = 1/5 ∧ (1/5 : ℝ) ≠ 1/2 := by
  refine ⟨by decide, ?_, by norm_num⟩
  rw [extract_tempo_value, tempo_map, keyword_lookup, if_pos (by decide)]

/-- Claim C9 (amended): `extract_tempo_value` is total with values in [0,1];
the table is scanned in insertion order and the first contained keyword wins,
so: a descriptor containing "slow" or "profound" yields a value in [0.1,0.2];
one containing "moderate" or "natural" — and no earlier-listed table keyword —
yields 0.5; one containing "fast", "urgent" or "agitated" — and no
earlier-listed table keyword — yields a value in [0.8,0.9]; one containing
none of the table's fifteen keywords yields the default 0.5. -/
theorem C9_tempo_axis_lookup (s : String) :
    (0 ≤ extract_tempo_value s ∧ extract_tempo_value s ≤ 1)
    ∧ ((pyContains (pyLower s) "slow" || pyContains (pyLower s) "profound") = true →
        1/10 ≤ extract_tempo_value s ∧ extract_tempo_value s ≤ 1/5)
    ∧ (((pyContains (pyLower s) "moderate" || pyContains (pyLower s) "natural") &&
          (["slow", "deeply", "profound", "gradually"].all
            (fun k => !pyContains (pyLower s) k))) = true →
        extract_tempo_value s = 1/2)
    ∧ (((pyContains (pyLower s) "fast" || pyContains (pyLower s) "urgent" ||
          pyContains (pyLower s) "agitated") &&
          (["slow", "deeply", "profound", "moderate", "gradually", "natural"].all
            (fun k => !pyContains (pyLower s) k))) = true →
        4/5 ≤ extract_tempo_value s ∧ extract_tempo_value s ≤ 9/10)
    ∧ ((["slow", "deeply", "profound", "moderate", "gradually", "natural", "fast",
          "urgent", "agitated", "tired", "sluggish", "gentle", "smooth", "flowing",
          "weightless"].all (fun k => !pyContains (pyLower s) k)) = true →
        extract_tempo_value s = 1/2) := by
  refine ⟨?_, ?_, ?_, ?_, ?_⟩
  · refine keyword_lookup_bounds tempo_map (1/2) s ?_ (by norm_num) (by norm_num)
    intro p hp
    simp only [tempo_map, List.mem_cons, List.not_mem_nil, or_false] at hp
    rcases hp with rfl | rfl | rfl | rfl | rfl | rfl | rfl | rfl | rfl | rfl | rfl |
      rfl | rfl | rfl | rfl <;> norm_num
  · intro h
    rw [extract_tempo_value, tempo_map]
    by_cases hs : pyContains (pyLower s) "slow" = true
    · rw [keyword_lookup, if_pos hs]
      norm_num
    · have hp : pyContains (pyLower s) "profound" = true := by
        rcases Bool.or_eq_true_iff.mp h with h' | h'
        · exact absurd h' hs
        · exact h'
      by_cases hd : pyContains (pyLower s) "deeply" = true
      · rw [keyword_lookup, if_neg hs, keyword_lookup, if_pos hd]
        norm_num
      · rw [keyword_lookup, if_neg hs, keyword_lookup, if_neg hd, keyword_lookup,
          if_pos hp]
        norm_num
  · intro h
    obtain ⟨h1, h2⟩ := Bool.and_eq_true_iff.mp h
    simp only [List.all_cons, List.all_nil, Bool.and_eq_true, Bool.not_eq_true',
      Bool.and_true] at h2
    obtain ⟨hs, hd, hp, hg⟩ := h2
    rw [extract_tempo_value, tempo_map, keyword_lookup, if_neg (by simp [hs]),
      keyword_lookup, if_neg (by simp [hd]), keyword_lookup, if_neg (by simp [hp])]
    by_cases hm : pyContains (pyLower s) "moderate" = true
    · rw [keyword_lookup, if_pos hm]
    · have hn : pyContains (pyLower s) "natural" = true := by
        rcases Bool.or_eq_true_iff.mp h1 with h' | h'
        · exact absurd h' hm
        · exact h'
      rw [keyword_lookup, if_neg hm, keyword_lookup, if_neg (by simp [hg]),
        keyword_lookup, if_pos hn]
  · intro h
    obtain ⟨h1, h2⟩ := Bool.and_eq_true_iff.mp h
    simp only [List.all_cons, List.all_nil, Bool.and_eq_true, Bool.not_eq_true',
      Bool.and_true] at h2
    obtain ⟨hs, hd, hp, hm, hg, hn⟩ := h2
    rw [extract_tempo_value, tempo_map, keyword_lookup, if_neg (by simp [hs]),
      keyword_lookup, if_neg (by simp [hd]), keyword_lookup, if_neg (by simp [hp]),
      keyword_lookup, if_neg (by simp [hm]), keyword_lookup, if_neg (by simp [hg]),
      keyword_lookup, if_neg (by simp [hn])]
    by_cases hf : pyContains (pyLower s) "fast" = true
    · rw [keyword_lookup, if_pos hf]
      norm_num
    · by_cases hu : pyContains (pyLower s) "urgent" = true
      · rw [keyword_lookup, if_neg hf, keyword_lookup, if_pos hu]
        norm_num
      · have ha : pyContains (pyLower s) "agitated" = true := by
          rcases Bool.or_eq_true_iff.mp h1 with h' | h'
          · rcases Bool.or_eq_true_iff.mp h' with h'' | h''
            · exact absurd h'' hf
            · exact absurd h'' hu
          · exact h'
        rw [keyword_lookup, if_neg hf, keyword_lookup, if_neg hu, keyword_lookup,
          if_pos ha]
        norm_num
  · intro h
    simp only [List.all_cons, List.all_nil, Bool.and_eq_true, Bool.not_eq_true',
      Bool.and_true] at h
    obtain ⟨k1, k2, k3, k4, k5, k6, k7, k8, k9, k10, k11, k12, k13, k14, k15⟩ := h
    rw [extract_tempo_value, tempo_map, keyword_lookup, if_neg (by simp [k1]),
      keyword_lookup, if_neg (by simp [k2]), keyword_lookup, if_neg (by simp [k3]),
      keyword_lookup, if_neg (by simp [k4]), keyword_lookup, if_neg (by simp [k5]),
      keyword_lookup, if_neg (by simp [k6]), keyword_lookup, if_neg (by simp [k7]),
      keyword_lookup, if_neg (by simp [k8]), keyword_lookup, if_neg (by simp [k9]),
      keyword_lookup, if_neg (by simp [k10]), keyword_lookup, if_neg (by simp [k11]),
      keyword_lookup, if_neg (by simp [k12]), keyword_lookup, if_neg (by simp [k13]),
      keyword_lookup, if_neg (by simp [k14]), keyword_lookup, if_neg (by simp [k15]),
      keyword_lookup]

/-! ## Claim C8 — totality and shape of `get_music_features` -/

/-- Claim C8: for every emotion string, `get_music_features` returns a
template with exactly three stages, each holding the six descriptor fields;
an emotion absent from the database falls back to the 焦虑 (anxiety)
template. (Two calls trivially agree: templates are synthesized once at
store initialization, and the lookup is read-only.) -/
theorem C8_get_template_total (emotion : String) :
    templateOK (get_music_features features_database emotion) = true
    ∧ (dictGet features_database emotion = none →
        get_music_features features_database emotion =
          (dictGet features_database "焦虑").getD []) := by
  have hall : ∀ p ∈ features_database, templateOK p.2 = true := by decide
  have hanx : templateOK ((dictGet features_database "焦虑").getD []) = true := by decide
  constructor
  · cases h : dictGet features_database emotion with
    | none => simpa [get_music_features, h] using hanx
    | some t => simpa [get_music_features, h] using hall _ (dictGet_mem h)
  · intro h
    simp [get_music_features, h]

/-! ## Claim C10 — `detect_emotion` is total into the supported taxonomy -/

theorem foldl_max_mem (l : List (String × ℕ)) (a : String × ℕ) :
    l.foldl (fun acc y => if acc.2 < y.2 then y else acc) a ∈ a :: l := by
  induction l generalizing a with
  | nil => simp
  | cons y ys ih =>
    simp only [List.foldl_cons]
    have h := ih (if a.2 < y.2 then y else a)
    by_cases hy : a.2 < y.2
    · rw [if_pos hy] at h ⊢
      exact List.mem_cons_of_mem _ h
    · rw [if_neg hy] at h ⊢
      rcases List.mem_cons.mp h with h' | h'
      · rw [h']
        exact List.mem_cons_self _ _
      · exact List.mem_cons_of_mem _ (List.mem_cons_of_mem _ h')

theorem py_max_by_score_mem {l : List (String × ℕ)} {x : String × ℕ}
    (h : py_max_by_score l = some x) : x ∈ l := by
  cases l with
  | nil => simp [py_max_by_score] at h
  | cons a xs =>
    simp only [py_max_by_score, Option.some.injEq] at h
    subst h
    exact foldl_max_mem xs a

theorem score_emotions_mem {cleaned : String} {table : List (String × List String)}
    {e : String} {n : ℕ} (h : (e, n) ∈ score_emotions cleaned table) :
    e ∈ table.map Prod.fst ∧ 1 ≤ n := by
  rw [score_emotions, List.mem_filterMap] at h
  obtain ⟨p, hp, heq⟩ := h
  by_cases hpos : 0 < calculate_emotion_score cleaned p.2
  · rw [if_pos hpos] at heq
    simp only [Option.some.injEq, Prod.mk.injEq] at heq
    obtain ⟨rfl, rfl⟩ := heq
    exact ⟨List.mem_map_of_mem Prod.fst hp, hpos⟩
  · rw [if_neg hpos] at heq
    cases heq

/-- Claim C10: for every input string, `detect_emotion` yields one of the 13
supported emotions (each with a template in the music-feature database) and a
confidence in [0.80, 0.95]; an input shorter than 2 characters after
stripping yields (焦虑, 0.85). -/
theorem C10_detect_emotion (input : String) :
    (detect_emotion input).1 ∈ all_emotions.map Prod.fst
    ∧ (dictGet features_database (detect_emotion input).1).isSome = true
    ∧ 4/5 ≤ (detect_emotion input).2 ∧ (detect_emotion input).2 ≤ 19/20
    ∧ ((input.isEmpty || decide ((pyStrip input).length < 2)) = true →
        detect_emotion input = ("焦虑", 17/20)) := by
  have hall13 : ∀ e ∈ all_emotions.map Prod.fst,
      (dictGet features_database e).isSome = true := by decide
  have hbase_sub : ∀ e ∈ base_emotions.map Prod.fst, e ∈ all_emotions.map Prod.fst := by
    intro e he
    rw [all_emotions, List.map_append, List.mem_append]
    exact Or.inl he
  by_cases hc : (input.isEmpty || decide ((pyStrip input).length < 2)) = true
  · have hdet : detect_emotion input = ("焦虑", 17/20) := by
      rw [detect_emotion, if_pos hc]
    refine ⟨?_, ?_, ?_, ?_, fun _ => hdet⟩ <;> rw [hdet]
    · decide
    · decide
    · norm_num
    · norm_num
  · have hdet : detect_emotion input =
        (match py_max_by_score
            (if (score_emotions (clean_input input) all_emotions).isEmpty then
              score_emotions (clean_input input) base_emotions
            else score_emotions (clean_input input) all_emotions) with
          | some best => (best.1, min (17/20 + best.2 * (3/100)) (19/20))
          | none => ("焦虑", 4/5)) := by
      rw [detect_emotion, if_neg hc]
    cases hmax : py_max_by_score
        (if (score_emotions (clean_input input) all_emotions).isEmpty then
          score_emotions (clean_input input) base_emotions
        else score_emotions (clean_input input) all_emotions) with
    | none =>
      rw [hmax] at hdet
      refine ⟨?_, ?_, ?_, ?_, fun h => absurd h hc⟩ <;> rw [hdet] <;>
        first
        | decide
        | norm_num
    | some best =>
      rw [hmax] at hdet
      have hbest : best.1 ∈ all_emotions.map Prod.fst ∧ 1 ≤ best.2 := by
        have hmem := py_max_by_score_mem hmax
        by_cases hemp : (score_emotions (clean_input input) all_emotions).isEmpty
        · rw [if_pos hemp] at hmem
          obtain ⟨h1, h2⟩ := score_emotions_mem (e := best.1) (n := best.2)
            (by simpa using hmem)
          exact ⟨hbase_sub _ h1, h2⟩
        · rw [if_neg hemp] at hmem
          exact score_emotions_mem (e := best.1) (n := best.2) (by simpa using hmem)
      have hcast : (1 : ℚ) ≤ (best.2 : ℚ) := by exact_mod_cast hbest.2
      refine ⟨?_, ?_, ?_, ?_, fun h => absurd h hc⟩ <;> rw [hdet]
      · exact hbest.1
      · exact hall13 _ hbest.1
      · refine le_min ?_ (by norm_num)
        nlinarith [hcast]
      · exact min_le_right _ _

/-! ## Claim C5 — the match-stage accessor mutates the stored template -/

/-- Claim C5, counterexample: after one call of
`extract_matching_stage_features` for 焦虑, `get_music_features` for 焦虑 no
longer returns the template it returned before the call (the stored match
stage now carries the `emotion`/`stage`/`iso_stage_ratio` tags), so the
claimed immutability of the stored template table fails. -/
theorem C5_counterexample :
    get_music_features (extract_matching_stage_features features_database "焦虑").2 "焦虑" ≠
      get_music_features features_database "焦虑" := by
  decide

/-- Claim C5 (amended): `extract_matching_stage_features` changes the stored
table in exactly one place — the resolved emotion's template has its match
stage replaced by the same stage tagged with `emotion`, `stage` and
`iso_stage_ratio = 0.25`; every other emotion's entry is untouched, and the
mutation is idempotent: repeating the accessor for the same emotion returns
the same tagged stage and leaves the table unchanged. -/
theorem C5_accessor_mutation (emotion : String) :
    (∀ e' : String,
      dictGet (extract_matching_stage_features features_database emotion).2 e' =
        if e' = (if (dictGet features_database emotion).isSome then emotion else "焦虑") then
          some (dictSet (get_music_features features_database emotion) "匹配阶段"
            (extract_matching_stage_features features_database emotion).1)
        else dictGet features_database e')
    ∧ extract_matching_stage_features
        (extract_matching_stage_features features_database emotion).2 emotion =
      ((extract_matching_stage_features features_database emotion).1,
        (extract_matching_stage_features features_database emotion).2) := by
  have hanx : (dictGet features_database "焦虑").isSome = true := by decide
  -- Abbreviations for the pieces of the first call.
  set F := get_music_features features_database emotion with hF
  set M := (dictGet F "匹配阶段").getD [] with hM
  set tagged := dictSet (dictSet (dictSet M "emotion" (.str emotion))
    "stage" (.str "匹配阶段")) "iso_stage_ratio" (.num (1/4)) with htagged
  set key := if (dictGet features_database emotion).isSome then emotion else "焦虑"
    with hkey
  have hr : extract_matching_stage_features features_database emotion =
      (tagged, dictSet features_database key (dictSet F "匹配阶段" tagged)) := rfl
  -- The tagged stage still holds its three tags, so re-tagging changes nothing.
  have hget_emotion : dictGet tagged "emotion" = some (.str emotion) := by
    rw [htagged, dictGet_dictSet_ne _ _ (by decide), dictGet_dictSet_ne _ _ (by decide),
      dictGet_dictSet_self]
  have hget_stage : dictGet tagged "stage" = some (.str "匹配阶段") := by
    rw [htagged, dictGet_dictSet_ne _ _ (by decide), dictGet_dictSet_self]
  have hget_iso : dictGet tagged "iso_stage_ratio" = some (.num (1/4)) := by
    rw [htagged, dictGet_dictSet_self]
  have hretag : dictSet (dictSet (dictSet tagged "emotion" (.str emotion))
      "stage" (.str "匹配阶段")) "iso_stage_ratio" (.num (1/4)) = tagged := by
    rw [dictSet_preserve hget_emotion, dictSet_preserve hget_stage,
      dictSet_preserve hget_iso]
  -- The updated database and its lookups.
  have hdb' : ∀ e' : String,
      dictGet (dictSet features_database key (dictSet F "匹配阶段" tagged)) e' =
        if e' = key then some (dictSet F "匹配阶段" tagged)
        else dictGet features_database e' := by
    intro e'
    by_cases he : e' = key
    · rw [he, if_pos rfl, dictGet_dictSet_self]
    · rw [if_neg he, dictGet_dictSet_ne _ _ he]
  refine ⟨by rw [hr]; exact hdb', ?_⟩
  -- Second call: the fallback key is unchanged.
  have hkey2 : (if (dictGet (dictSet features_database key
      (dictSet F "匹配阶段" tagged)) emotion).isSome then emotion else "焦虑") = key := by
    by_cases hsome : (dictGet features_database emotion).isSome
    · have hkeq : key = emotion := by rw [hkey, if_pos hsome]
      rw [hdb', if_pos hkeq.symm, hkey, if_pos hsome]
      simp
    · have hkeq : key = "焦虑" := by rw [hkey, if_neg hsome]
      have hne : emotion ≠ key := by
        intro hcon
        rw [hkeq] at hcon
        rw [hcon] at hsome
        exact hsome hanx
      rw [hdb', if_neg hne]
  -- Second call: the fetched template is the updated one.
  have hgmf2 : get_music_features (dictSet features_database key
      (dictSet F "匹配阶段" tagged)) emotion = dictSet F "匹配阶段" tagged := by
    by_cases hsome : (dictGet features_database emotion).isSome
    · have hkeq : key = emotion := by rw [hkey, if_pos hsome]
      rw [get_music_features, hdb', if_pos hkeq.symm]
    · have hkeq : key = "焦虑" := by rw [hkey, if_neg hsome]
      have hne : emotion ≠ key := by
        intro hcon
        rw [hkeq] at hcon
        rw [hcon] at hsome
        exact hsome hanx
      rw [get_music_features, hdb', if_neg hne]
      cases hdge : dictGet features_database emotion with
      | none =>
        show (dictGet (dictSet features_database key
          (dictSet F "匹配阶段" tagged)) "焦虑").getD [] = dictSet F "匹配阶段" tagged
        rw [hdb', if_pos hkeq.symm, Option.getD_some]
      | some t =>
        rw [hdge] at hsome
        simp at hsome
  -- Second call: the fetched match stage is the tagged one.
  have hmatch2 : (dictGet (dictSet F "匹配阶段" tagged) "匹配阶段").getD [] = tagged := by
    rw [dictGet_dictSet_self, Option.getD_some]
  -- Assemble the idempotence equation.
  rw [hr]
  show (dictSet (dictSet (dictSet
      ((dictGet (get_music_features (dictSet features_database key
        (dictSet F "匹配阶段" tagged)) emotion) "匹配阶段").getD [])
      "emotion" (.str emotion)) "stage" (.str "匹配阶段")) "iso_stage_ratio" (.num (1/4)),
    dictSet (dictSet features_database key (dictSet F "匹配阶段" tagged))
      (if (dictGet (dictSet features_database key (dictSet F "匹配阶段" tagged))
          emotion).isSome then emotion else "焦虑")
      (dictSet (get_music_features (dictSet features_database key
        (dictSet F "匹配阶段" tagged)) emotion) "匹配阶段"
        (dictSet (dictSet (dictSet
          ((dictGet (get_music_features (dictSet features_database key
            (dictSet F "匹配阶段" tagged)) emotion) "匹配阶段").getD [])
          "emotion" (.str emotion)) "stage" (.str "匹配阶段")) "iso_stage_ratio"
          (.num (1/4))))) = (tagged, dictSet features_database key (dictSet F "匹配阶段" tagged))
  rw [hgmf2, hmatch2, hretag, hkey2, dictSet_preserve (dictGet_dictSet_self _ _ _),
    dictSet_preserve (dictGet_dictSet_self _ _ _)]

/-! ## Claim C4 — the content fingerprint -/

/-- Claim C4, counterexample: the fingerprint is built from
`video_path.name` — the basename — so the two distinct source paths
`a/x.mp4` and `b/x.mp4`, with equal size, modification time and extraction
ratio, receive the *same* fingerprint, contradicting the claim that segments
differing in source path get different fingerprints. -/
theorem C4_counterexample :
    ("a/x.mp4" : String) ≠ "b/x.mp4"
    ∧ clamp3_generate_feature_id (basename "a/x.mp4") 1 2 1 =
        clamp3_generate_feature_id (basename "b/x.mp4") 1 2 1
    ∧ audio_generate_feature_id (basename "a/x.mp4") 1 2 1 =
        audio_generate_feature_id (basename "b/x.mp4") 1 2 1 := by
  have hb : basename "a/x.mp4" = basename "b/x.mp4" := by decide
  exact ⟨by decide, by rw [hb], by rw [hb]⟩

/-- Claim C4 (amended): the fingerprint is a deterministic function of the
segment's *basename*, file size, modification time and extraction ratio —
the same unchanged segment always yields the same fingerprint, segments
differing only in parent directory collide, and two segments whose basenames
differ (at equal size, mtime and ratio) yield different digest preimages. -/
theorem C4_fingerprint_of_basename (p1 p2 : String) (size : ℕ) (mtime ratio : ℚ) :
    (basename p1 = basename p2 →
      clamp3_generate_feature_id (basename p1) size mtime ratio =
        clamp3_generate_feature_id (basename p2) size mtime ratio)
    ∧ (basename p1 ≠ basename p2 →
      clamp3_generate_feature_id (basename p1) size mtime ratio ≠
        clamp3_generate_feature_id (basename p2) size mtime ratio
      ∧ audio_generate_feature_id (basename p1) size mtime ratio ≠
        audio_generate_feature_id (basename p2) size mtime ratio) := by
  constructor
  · intro h
    rw [h]
  · intro hne
    have inj0 : ∀ n1 n2 : String,
        n1 ++ "_" ++ toString size ++ "_" ++ toString mtime ++ "_" ++ toString ratio =
          n2 ++ "_" ++ toString size ++ "_" ++ toString mtime ++ "_" ++ toString ratio →
        n1 = n2 := by
      intro n1 n2 h
      have hdata := congrArg String.data h
      simp only [String.data_append, List.append_assoc] at hdata
      have h3 := List.append_cancel_right hdata
      cases n1
      cases n2
      exact congrArg String.mk (by simpa using h3)
    have inj1 : ∀ pre n1 n2 : String,
        pre ++ n1 ++ "_" ++ toString size ++ "_" ++ toString mtime ++ "_" ++
            toString ratio =
          pre ++ n2 ++ "_" ++ toString size ++ "_" ++ toString mtime ++ "_" ++
            toString ratio →
        n1 = n2 := by
      intro pre n1 n2 h
      have hdata := congrArg String.data h
      simp only [String.data_append, List.append_assoc] at hdata
      have h2 := List.append_cancel_left hdata
      have h3 := List.append_cancel_right h2
      cases n1
      cases n2
      exact congrArg String.mk (by simpa using h3)
    constructor
    · intro h
      rw [clamp3_generate_feature_id, clamp3_generate_feature_id] at h
      exact hne (inj1 "clamp3_" _ _ h)
    · intro h
      rw [audio_generate_feature_id, audio_generate_feature_id] at h
      exact hne (inj0 _ _ h)

/-! ## Vector lemmas: Cauchy–Schwarz for list dot products, normalisation -/

theorem dotL_cons (a b : ℝ) (as_ bs : List ℝ) :
    dotL (a :: as_) (b :: bs) = a * b + dotL as_ bs := rfl

theorem sumSq_cons (a : ℝ) (l : List ℝ) : sumSq (a :: l) = a * a + sumSq l := rfl

theorem sumSq_nonneg (v : List ℝ) : 0 ≤ sumSq v := by
  induction v with
  | nil => exact le_refl 0
  | cons a l ih =>
    rw [sumSq_cons]
    nlinarith [mul_self_nonneg a]

/-- Cauchy–Schwarz for the zip dot product of two real lists. -/
theorem dotL_sq_le (x : List ℝ) : ∀ y : List ℝ, (dotL x y) ^ 2 ≤ sumSq x * sumSq y := by
  induction x with
  | nil =>
    intro y
    simp [dotL, sumSq]
  | cons a as_ ih =>
    intro y
    cases y with
    | nil =>
      simp [dotL, sumSq]
    | cons b bs =>
      have hA := sumSq_nonneg as_
      have hB := sumSq_nonneg bs
      have hIH := ih bs
      rw [dotL_cons, sumSq_cons, sumSq_cons]
      by_cases hA0 : sumSq as_ = 0
      · have hd2 : (dotL as_ bs) ^ 2 = 0 := by
          refine le_antisymm ?_ (sq_nonneg _)
          rw [hA0] at hIH
          linarith
        have hd : dotL as_ bs = 0 := sq_eq_zero_iff.mp hd2
        rw [hd, hA0]
        nlinarith [mul_self_nonneg a, mul_self_nonneg b, sq_nonneg (a * b)]
      · have hApos : 0 < sumSq as_ := lt_of_le_of_ne hA (Ne.symm hA0)
        nlinarith [sq_nonneg (b * sumSq as_ - a * dotL as_ bs),
          mul_nonneg (add_nonneg (mul_self_nonneg a) hA) (sub_nonneg.mpr hIH), hApos, hB]

theorem dotL_le_one {x y : List ℝ} (hx : sumSq x ≤ 1) (hy : sumSq y ≤ 1) :
    dotL x y ≤ 1 := by
  nlinarith [dotL_sq_le x y, sumSq_nonneg x, sumSq_nonneg y, sq_nonneg (dotL x y - 1)]

theorem sumSq_map_div (v : List ℝ) (c : ℝ) (hc : c ≠ 0) :
    sumSq (v.map (fun x => x / c)) = sumSq v / c ^ 2 := by
  induction v with
  | nil => simp [sumSq, dotL]
  | cons a l ih =>
    rw [List.map_cons, sumSq_cons, sumSq_cons, ih]
    field_simp
    ring

theorem l2norm_nonneg (v : List ℝ) : 0 ≤ l2norm v := Real.sqrt_nonneg _

theorem sumSq_normalize_le_one (v : List ℝ) : sumSq (normalize_vector v) ≤ 1 := by
  rw [normalize_vector]
  split_ifs with h
  · have hpos : 0 < sumSq v := Real.sqrt_pos.mp h
    rw [sumSq_map_div _ _ (ne_of_gt h), l2norm, Real.sq_sqrt (sumSq_nonneg v),
      div_self (ne_of_gt hpos)]
  · have hz : l2norm v = 0 := le_antisymm (not_lt.mp h) (l2norm_nonneg v)
    have hle : sumSq v ≤ 0 := Real.sqrt_eq_zero'.mp hz
    linarith

theorem sumSq_take (v : List ℝ) : ∀ m : ℕ, sumSq (v.take m) ≤ sumSq v := by
  induction v with
  | nil => intro m; simp
  | cons a l ih =>
    intro m
    cases m with
    | zero =>
      simpa [sumSq, dotL] using sumSq_nonneg (a :: l)
    | succ m =>
      rw [List.take_succ_cons, sumSq_cons, sumSq_cons]
      exact add_le_add_left (ih m) _

/-- The blended similarity `w1 * max 0 (dot) + w2 * (1 / (1 + dist))` lies in
[0,1] whenever the weights are a convex pair and both vectors have squared
norm at most 1. -/
theorem similarity_formula_bound (a b : List ℝ) (w1 w2 : ℝ) (h1 : 0 ≤ w1)
    (h2 : 0 ≤ w2) (hw : w1 + w2 = 1) (ha : sumSq a ≤ 1) (hb : sumSq b ≤ 1) :
    0 ≤ w1 * max 0 (dotL a b) + w2 * (1 / (1 + l2norm (listSub a b))) ∧
      w1 * max 0 (dotL a b) + w2 * (1 / (1 + l2norm (listSub a b))) ≤ 1 := by
  have hcos0 : 0 ≤ max 0 (dotL a b) := le_max_left 0 _
  have hcos1 : max 0 (dotL a b) ≤ 1 := max_le (by norm_num) (dotL_le_one ha hb)
  have hd0 : 0 ≤ l2norm (listSub a b) := l2norm_nonneg _
  have hden : (0 : ℝ) < 1 + l2norm (listSub a b) := by linarith
  have heuc0 : 0 ≤ 1 / (1 + l2norm (listSub a b)) := le_of_lt (div_pos one_pos hden)
  have heuc1 : 1 / (1 + l2norm (listSub a b)) ≤ 1 := by
    rw [div_le_one hden]
    linarith
  constructor
  · exact add_nonneg (mul_nonneg h1 hcos0) (mul_nonneg h2 heuc0)
  · calc w1 * max 0 (dotL a b) + w2 * (1 / (1 + l2norm (listSub a b)))
        ≤ w1 * 1 + w2 * 1 :=
          add_le_add (mul_le_mul_of_nonneg_left hcos1 h1)
            (mul_le_mul_of_nonneg_left heuc1 h2)
      _ = 1 := by rw [mul_one, mul_one, hw]

theorem calculate_clamp3_similarity_bound (ev : List ℝ) (vf : VideoFeatures)
    (hev : sumSq ev ≤ 1) :
    0 ≤ calculate_clamp3_similarity ev vf ∧ calculate_clamp3_similarity ev vf ≤ 1 := by
  rw [calculate_clamp3_similarity]
  cases py_or_vec vf.clamp3_features vf.feature_vector with
  | none =>
    dsimp only
    norm_num
  | some v =>
    dsimp only
    by_cases hemp : v.isEmpty = true
    · rw [if_pos hemp]
      norm_num
    · rw [if_neg hemp]
      exact similarity_formula_bound _ _ _ _ (by norm_num) (by norm_num) (by norm_num)
        (le_trans (sumSq_take _ _) hev)
        (le_trans (sumSq_take _ _) (sumSq_normalize_le_one _))

theorem calculate_traditional_similarity_bound (ev : List ℝ) (vf : VideoFeatures)
    (hev : sumSq ev ≤ 1) :
    0 ≤ calculate_traditional_similarity ev vf ∧
      calculate_traditional_similarity ev vf ≤ 1 := by
  rw [calculate_traditional_similarity]
  exact similarity_formula_bound _ _ _ _ (by norm_num) (by norm_num) (by norm_num)
    (le_trans (sumSq_take _ _) hev)
    (le_trans (sumSq_take _ _) (sumSq_normalize_le_one _))

/-- Every vector stored in the engine's emotion database is the image of
`normalize_vector`. -/
theorem engine_edb_normalized :
    ∀ pr ∈ engine_emotion_database, ∃ w, pr.2 = normalize_vector w := by
  have main : ∀ (emos : List String) (acc : List (String × List ℝ) × FeaturesDB),
      (∀ pr ∈ acc.1, ∃ w, pr.2 = normalize_vector w) →
      ∀ pr ∈ (emos.foldl
        (fun acc emotion =>
          let st := extract_matching_stage_features acc.2 emotion
          (dictSet acc.1 emotion (normalize_vector (emotion_features_to_vector st.1)),
            st.2)) acc).1,
      ∃ w, pr.2 = normalize_vector w := by
    intro emos
    induction emos with
    | nil => exact fun acc hacc pr hpr => hacc pr hpr
    | cons e es ih =>
      intro acc hacc pr hpr
      rw [List.foldl_cons] at hpr
      refine ih _ ?_ pr hpr
      intro q hq
      rcases mem_dictSet hq with h | h
      · exact ⟨_, by rw [h]⟩
      · exact hacc q h
  intro pr hpr
  exact main (get_supported_emotions features_database) ([], features_database)
    (by simp) pr hpr

/-! ## Claim C1 — similarity scores lie in [0,1] -/

/-- Claim C1: for every emotion name and candidate feature record, the
engine's `calculate_similarity` — the blended score
`w_cos * max 0 (dot) + w_euc * (1/(1+dist))` over the normalised emotion
vector and the candidate-derived vector truncated to common length — returns
a value in [0,1], and an unknown emotion yields 0.0. -/
theorem C1_similarity_in_unit_interval (emotion : String) (vf : VideoFeatures) :
    (0 ≤ calculate_similarity engine_emotion_database emotion vf
      ∧ calculate_similarity engine_emotion_database emotion vf ≤ 1)
    ∧ (dictGet engine_emotion_database emotion = none →
        calculate_similarity engine_emotion_database emotion vf = 0) := by
  cases hdg : dictGet engine_emotion_database emotion with
  | none =>
    have h0 : calculate_similarity engine_emotion_database emotion vf = 0 := by
      rw [calculate_similarity, hdg]
    rw [h0]
    exact ⟨⟨le_refl 0, by norm_num⟩, fun _ => rfl⟩
  | some ev =>
    have hev : sumSq ev ≤ 1 := by
      obtain ⟨w, hw⟩ := engine_edb_normalized (emotion, ev) (dictGet_mem hdg)
      simp only at hw
      rw [hw]
      exact sumSq_normalize_le_one w
    have hb : calculate_similarity engine_emotion_database emotion vf =
        (if vf.clamp3_features.isSome || vf.feature_vector.isSome then
          calculate_clamp3_similarity ev vf
        else calculate_traditional_similarity ev vf) := by
      rw [calculate_similarity, hdg]
    refine ⟨?_, fun hcon => by cases hcon⟩
    rw [hb]
    by_cases hck : (vf.clamp3_features.isSome || vf.feature_vector.isSome) = true
    · rw [if_pos hck]
      exact calculate_clamp3_similarity_bound ev vf hev
    · rw [if_neg hck]
      exact calculate_traditional_similarity_bound ev vf hev

/-! ## Claim C2 — the ranking operation -/

/-- Claim C2: `retrieve_videos` returns a list sorted non-increasing by
similarity score, containing only candidates scoring at least
`min_similarity`, of length at most `top_k`, with ties between equal scores
kept in catalog iteration order (the filtered catalog sequence): for every
score `s`, the output's entries with score `s` are a sublist of the filtered
catalog's entries with score `s`. -/
theorem C2_rank_order_threshold_length (fdb : List (String × VideoFeatures))
    (emotion : String) (top_k : ℕ) (min_similarity : ℝ) :
    List.Pairwise (fun x y : String × ℝ × VideoFeatures => y.2.1 ≤ x.2.1)
      (retrieve_videos fdb engine_emotion_database emotion top_k min_similarity)
    ∧ List.Forall (fun x : String × ℝ × VideoFeatures => min_similarity ≤ x.2.1)
      (retrieve_videos fdb engine_emotion_database emotion top_k min_similarity)
    ∧ (retrieve_videos fdb engine_emotion_database emotion top_k
        min_similarity).length ≤ top_k
    ∧ ∀ s : ℝ,
      List.Sublist
        (List.filter (fun x => decide (x.2.1 = s))
          (retrieve_videos fdb engine_emotion_database emotion top_k min_similarity))
        (List.filter (fun x => decide (x.2.1 = s))
          (fdb.filterMap (fun p =>
            if min_similarity ≤ calculate_similarity engine_emotion_database emotion p.2 then
              some (p.1, calculate_similarity engine_emotion_database emotion p.2, p.2)
            else none))) := by
  by_cases hemp : fdb.isEmpty = true
  · have h0 : retrieve_videos fdb engine_emotion_database emotion top_k
        min_similarity = [] := by
      rw [retrieve_videos, if_pos hemp]
    rw [h0]
    exact ⟨List.Pairwise.nil, trivial, by simp, fun s => by simp⟩
  · have hr : retrieve_videos fdb engine_emotion_database emotion top_k min_similarity =
        ((fdb.filterMap (fun p =>
          if min_similarity ≤ calculate_similarity engine_emotion_database emotion p.2 then
            some (p.1, calculate_similarity engine_emotion_database emotion p.2, p.2)
          else none)).mergeSort (fun a b => decide (b.2.1 ≤ a.2.1))).take top_k := by
      rw [retrieve_videos, if_neg hemp]
    set scored := fdb.filterMap (fun p =>
      if min_similarity ≤ calculate_similarity engine_emotion_database emotion p.2 then
        some (p.1, calculate_similarity engine_emotion_database emotion p.2, p.2)
      else none) with hscored
    set cmp := fun (a b : String × ℝ × VideoFeatures) => decide (b.2.1 ≤ a.2.1) with hcmp
    have htrans : ∀ a b c, cmp a b = true → cmp b c = true → cmp a c = true := by
      intro a b c hab hbc
      simp only [hcmp, decide_eq_true_eq] at hab hbc ⊢
      exact le_trans hbc hab
    have htotal : ∀ a b, (cmp a b || cmp b a) = true := by
      intro a b
      simp only [hcmp, Bool.or_eq_true, decide_eq_true_eq]
      exact le_total _ _
    refine ⟨?_, ?_, ?_, ?_⟩
    · rw [hr]
      have hp := List.sorted_mergeSort htrans htotal scored
      have hp2 : List.Pairwise
          (fun x y : String × ℝ × VideoFeatures => y.2.1 ≤ x.2.1)
          (scored.mergeSort cmp) :=
        hp.imp (fun h => by
          simpa only [hcmp, decide_eq_true_eq] using h)
      exact hp2.sublist (List.take_sublist _ _)
    · rw [hr, List.forall_iff_forall_mem]
      intro x hx
      have hx3 : x ∈ scored := List.mem_mergeSort.mp ((List.take_sublist _ _).mem hx)
      rw [hscored, List.mem_filterMap] at hx3
      obtain ⟨p, _, heq⟩ := hx3
      by_cases hif : min_similarity ≤ calculate_similarity engine_emotion_database
        emotion p.2
      · rw [if_pos hif] at heq
        cases heq
        exact hif
      · rw [if_neg hif] at heq
        cases heq
    · rw [hr]
      exact List.length_take_le _ _
    · intro s
      rw [hr]
      set prd := fun x : String × ℝ × VideoFeatures => decide (x.2.1 = s) with hprd
      have hall_s : ∀ x ∈ scored.filter prd, x.2.1 = s := by
        intro x hx
        have := List.of_mem_filter hx
        rw [hprd] at this
        exact of_decide_eq_true this
      have hcpair : List.Pairwise (fun a b => cmp a b = true) (scored.filter prd) := by
        refine List.pairwise_of_forall_mem_list ?_
        intro a ha b hb
        rw [hcmp]
        simp only [decide_eq_true_eq, hall_s a ha, hall_s b hb]
        exact le_refl s
      have h1 : (scored.filter prd).Sublist (scored.mergeSort cmp) :=
        List.sublist_mergeSort htrans htotal hcpair (List.filter_sublist _)
      have hpf : ((scored.mergeSort cmp).filter prd).Perm (scored.filter prd) :=
        (List.mergeSort_perm scored cmp).filter prd
      have hfix : (scored.filter prd).filter prd = scored.filter prd :=
        List.filter_eq_self.mpr (fun a ha => by
          rw [hprd]
          exact decide_eq_true (hall_s a ha))
      have h2 : (scored.filter prd).Sublist ((scored.mergeSort cmp).filter prd) := by
        have := List.Sublist.filter prd h1
        rwa [hfix] at this
      have heq2 : scored.filter prd = (scored.mergeSort cmp).filter prd :=
        h2.eq_of_length hpf.length_eq.symm
      have h3 : (((scored.mergeSort cmp).take top_k).filter prd).Sublist
          ((scored.mergeSort cmp).filter prd) :=
        List.Sublist.filter prd (List.take_sublist _ _)
      rw [← heq2] at h3
      exact h3

/-! ## Claim C6 — random pick from the ranked list, and the empty catalog -/

/-- Claim C6: `get_random_from_top_k` returns an element of the list produced
by `retrieve_videos` for the same arguments, or `None` exactly when that list
is empty; in particular an empty catalog makes `retrieve_videos` return `[]`
and both `get_random_from_top_k` and `select_therapy_video` return `None`
(no exception — the embedding is total). -/
theorem C6_random_pick_and_empty_catalog (fdb : List (String × VideoFeatures))
    (seed : ℕ) (emotion : String) (top_k : ℕ) (user_input : String) :
    (match get_random_from_top_k fdb seed emotion top_k with
      | none => retrieve_videos fdb engine_emotion_database emotion top_k (1/10) = []
      | some x => x ∈ retrieve_videos fdb engine_emotion_database emotion top_k (1/10))
    ∧ retrieve_videos [] engine_emotion_database emotion top_k (1/10) = []
    ∧ get_random_from_top_k [] seed emotion top_k = none
    ∧ select_therapy_video [] seed user_input = none := by
  have hempty : ∀ (e : String) (k : ℕ),
      retrieve_videos ([] : List (String × VideoFeatures))
        engine_emotion_database e k (1/10) = [] := by
    intro e k
    rw [retrieve_videos]
    simp
  have hrand : ∀ (e : String) (k : ℕ),
      get_random_from_top_k ([] : List (String × VideoFeatures)) seed e k = none := by
    intro e k
    rw [get_random_from_top_k, hempty e k]
    simp
  refine ⟨?_, hempty emotion top_k, hrand emotion top_k, ?_⟩
  · cases hrnd : get_random_from_top_k fdb seed emotion top_k with
    | none =>
      rw [get_random_from_top_k] at hrnd
      by_cases hne : (retrieve_videos fdb engine_emotion_database emotion top_k
          (1/10)).isEmpty = true
      · exact List.isEmpty_iff.mp hne
      · rw [if_neg hne] at hrnd
        have hlen : 0 < (retrieve_videos fdb engine_emotion_database emotion top_k
            (1/10)).length := by
          cases hl : retrieve_videos fdb engine_emotion_database emotion top_k (1/10) with
          | nil => rw [hl] at hne; exact absurd rfl hne
          | cons a l => exact Nat.succ_pos _
        rw [List.getElem?_eq_getElem (Nat.mod_lt _ hlen)] at hrnd
        cases hrnd
    | some x =>
      rw [get_random_from_top_k] at hrnd
      by_cases hne : (retrieve_videos fdb engine_emotion_database emotion top_k
          (1/10)).isEmpty = true
      · rw [if_pos hne] at hrnd
        cases hrnd
      · rw [if_neg hne] at hrnd
        exact List.getElem?_mem hrnd
  · rw [select_therapy_video, hrand (detect_emotion user_input).1 5]

/-! ## Claim C3 — cached extraction is idempotent per fingerprint -/

/-- Claim C3: if a feature record with the segment's fingerprint is already in
the cache and the segment's file still exists, `extract_video_features`
returns that identical record and leaves the extractor state unchanged — in
particular the audio-extraction, embedding-provider and fallback run counters
do not move, so no recomputation happens (at-most-once per fingerprint). -/
theorem C3_cache_hit_idempotent (env : ExtractEnv) (st : ExtractorState)
    (video_path : String) (ratio : ℚ) (cached : VideoFeatures)
    (hex : env.file_exists video_path = true)
    (hcache : dictGet st.features_cache
      (clamp3_generate_feature_id (basename video_path) (env.file_size video_path)
        (env.file_mtime video_path) ratio) = some cached) :
    extract_video_features env st video_path ratio = (some cached, st) := by
  rw [extract_video_features, hex]
  simp only [Bool.not_true, Bool.false_eq_true, if_false]
  rw [hcache]

/-- Claim C3, witness: a concrete environment and a cache holding a record
under the fingerprint of `materials/video/32.mp4`; the call returns that
record and the state is untouched. -/
theorem C3_cache_hit_idempotent_witness :
    extract_video_features hit_env hit_state "materials/video/32.mp4" (1/4) =
      (some hit_record, hit_state) :=
  C3_cache_hit_idempotent hit_env hit_state "materials/video/32.mp4" (1/4) hit_record
    rfl (by rw [hit_state]; simp [dictGet])

/-! ## Claim C7 — batch extraction isolates per-segment failures -/

theorem extract_batch_go_keys (env : ExtractEnv) (lst : List SegInfo) :
    ∀ (ratio : ℚ) (db : List (String × VideoFeatures)) (st : ExtractorState)
      (kv : String × VideoFeatures),
      kv ∈ (extract_batch_go env lst ratio db st).1 →
      kv.1 ∈ listed_paths lst ∨ kv ∈ db := by
  induction lst with
  | nil =>
    intro ratio db st kv h
    rw [extract_batch_go] at h
    exact Or.inr h
  | cons info rest ih =>
    intro ratio db st kv h
    rw [extract_batch_go] at h
    cases hpp : py_or_path info.segment_path info.file_path with
    | none =>
      rw [hpp] at h
      dsimp only at h
      have hlp : listed_paths (info :: rest) = listed_paths rest := by
        simp [listed_paths, List.filterMap_cons, hpp]
      rcases ih ratio db st kv h with h' | h'
      · exact Or.inl (by rw [hlp]; exact h')
      · exact Or.inr h'
    | some p =>
      rw [hpp] at h
      dsimp only at h
      by_cases hpe : p.isEmpty = true
      · rw [if_pos hpe] at h
        have hlp : listed_paths (info :: rest) = listed_paths rest := by
          simp [listed_paths, List.filterMap_cons, hpp, hpe]
        rcases ih ratio db st kv h with h' | h'
        · exact Or.inl (by rw [hlp]; exact h')
        · exact Or.inr h'
      · rw [if_neg hpe] at h
        have hlp : listed_paths (info :: rest) = p :: listed_paths rest := by
          simp [listed_paths, List.filterMap_cons, hpp, hpe]
        cases hev : (extract_video_features env st p ratio).1 with
        | none =>
          rw [hev] at h
          dsimp only at h
          rcases ih ratio db _ kv h with h' | h'
          · exact Or.inl (by rw [hlp]; exact List.mem_cons_of_mem _ h')
          · exact Or.inr h'
        | some f =>
          rw [hev] at h
          dsimp only at h
          rcases ih ratio _ _ kv h with h' | h'
          · exact Or.inl (by rw [hlp]; exact List.mem_cons_of_mem _ h')
          · rcases mem_dictSet h' with h'' | h''
            · refine Or.inl ?_
              rw [hlp, h'']
              exact List.mem_cons_self _ _
            · exact Or.inr h''

theorem extract_fail_env (st : ExtractorState) (p : String) (ratio : ℚ)
    (hc : st.features_cache = []) :
    (extract_video_features both_paths_fail_env st p ratio).1 = none ∧
      (extract_video_features both_paths_fail_env st p ratio).2.features_cache = [] := by
  rw [extract_video_features]
  simp [both_paths_fail_env, extract_fallback_features, hc, dictGet]

theorem extract_batch_go_fail (lst : List SegInfo) :
    ∀ (ratio : ℚ) (db : List (String × VideoFeatures)) (st : ExtractorState),
      st.features_cache = [] →
      (extract_batch_go both_paths_fail_env lst ratio db st).1 = db := by
  induction lst with
  | nil =>
    intro ratio db st _
    rw [extract_batch_go]
  | cons info rest ih =>
    intro ratio db st hc
    rw [extract_batch_go]
    cases hpp : py_or_path info.segment_path info.file_path with
    | none => exact ih ratio db st hc
    | some p =>
      dsimp only
      by_cases hpe : p.isEmpty = true
      · rw [if_pos hpe]
        exact ih ratio db st hc
      · rw [if_neg hpe]
        obtain ⟨h1, h2⟩ := extract_fail_env st p ratio hc
        rw [h1]
        dsimp only
        exact ih ratio db _ h2

/-- Claim C7: batch extraction never fails as a whole — its result dict's keys
are a subset of the listed segment paths (a descriptor without a usable path
contributes nothing), and when every per-segment extraction fails (both the
embedding provider and the fallback), the batch simply returns the empty dict
instead of propagating an error. -/
theorem C7_batch_isolation :
    (∀ (env : ExtractEnv) (st : ExtractorState) (video_list : List SegInfo) (ratio : ℚ),
      List.Forall (fun kv => kv.1 ∈ listed_paths video_list)
        (extract_batch_features env st video_list ratio).1)
    ∧ (∀ (video_list : List SegInfo) (ratio : ℚ),
      (extract_batch_features both_paths_fail_env empty_extractor_state
        video_list ratio).1 = []) := by
  constructor
  · intro env st video_list ratio
    rw [List.forall_iff_forall_mem]
    intro kv hkv
    rw [extract_batch_features] at hkv
    rcases extract_batch_go_keys env video_list ratio [] st kv hkv with h | h
    · exact h
    · cases h
  · intro video_list ratio
    rw [extract_batch_features]
    exact extract_batch_go_fail video_list ratio [] empty_extractor_state rfl

end QM4
